import Mathlib

/-!
Shallow embedding of the api-contract-guardian core: the rule registry,
the rule execution engine (with output normalization), the configuration
parser (extends resolution and config merging), and the validator
orchestrator.  Definitions are translated from the TypeScript sources
(`RuleRegistry.ts`, `RuleEngine`, `ConfigParser`, `defaults`, `Validator.ts`);
JavaScript runtime values are modelled by `JsVal` with JS truthiness.
-/

namespace ApiGuardian

/-- Model of a JavaScript runtime value as manipulated by the engine.
Numbers are modelled as integers (the code never does float arithmetic on
issue fields); `undefined` and `null` are distinct, as in JS. -/
inductive JsVal where
  | null
  | undefined
  | bool (b : Bool)
  | num (n : Int)
  | str (s : String)
  | arr (elems : List JsVal)
  | obj (fields : List (String × JsVal))

/-- JavaScript truthiness: `null`, `undefined`, `false`, `0` and `""` are
falsy; arrays and objects are always truthy. -/
def truthy : JsVal → Bool
  | .null => false
  | .undefined => false
  | .bool b => b
  | .num n => n != 0
  | .str s => s != ""
  | .arr _ => true
  | .obj _ => true

/-- `v === "s"` for a string literal `s` (JS strict equality against a string). -/
def JsVal.isStrEq (v : JsVal) (s : String) : Bool :=
  match v with
  | .str t => t == s
  | _ => false

/-- `IssueSeverity` enum from `interfaces/ValidationResult.ts`. -/
inductive IssueSeverity where
  | error
  | warning
  | info
  | hint
deriving DecidableEq

/-- The string value of each `IssueSeverity` enum member. -/
def IssueSeverity.toStr : IssueSeverity → String
  | .error => "error"
  | .warning => "warning"
  | .info => "info"
  | .hint => "hint"

/-- `RuleCategory` enum from `interfaces/Rule.ts`. -/
inductive RuleCategory where
  | structural
  | documentation
  | rest
  | governance
  | security
deriving DecidableEq

/-- `RuleConfig` from `interfaces/Config.ts`: a partial override
`{severity?, enabled?, options?}`. -/
structure RuleConfig where
  severity : Option IssueSeverity := none
  enabled : Option Bool := none
  options : Option (List (String × JsVal)) := none

/-- A rule function `(spec, options) → unknown`; a thrown exception is
modelled by `Except.error` carrying the message. -/
def RuleFunction := JsVal → Option (List (String × JsVal)) → Except String JsVal

/-- `Rule` from `interfaces/Rule.ts`. -/
structure Rule where
  id : String
  name : String
  description : String
  severity : IssueSeverity
  category : RuleCategory
  enabled : Option Bool := none
  fixable : Option Bool := none
  fn : RuleFunction
  options : Option (List (String × JsVal)) := none

/-- First-match lookup in an association list, modelling `Map.get` /
JS property access on objects built from unique keys. -/
def lookupKey (k : String) : List (String × α) → Option α
  | [] => none
  | kv :: rest => if kv.1 = k then some kv.2 else lookupKey k rest

/-- `Map.set`: replace the entry for the key in place, or append a new one. -/
def setKey (k : String) (v : α) : List (String × α) → List (String × α)
  | [] => [(k, v)]
  | kv :: rest => if kv.1 = k then (k, v) :: rest else kv :: setKey k v rest

/-- JS object spread `{...parent, ...child}`: parent keys first (with the
child value if the child also has the key), then child-only keys. -/
def mergeMap (parent child : List (String × α)) : List (String × α) :=
  parent.map (fun kv => (kv.1, (lookupKey kv.1 child).getD kv.2)) ++
    child.filter (fun kv => (lookupKey kv.1 parent).isNone)

/-- `RuleRegistry` state: the rule map, the category index and the stored
overrides (`RuleRegistry.ts`). -/
structure RuleRegistry where
  rules : List (String × Rule) := []
  ruleCategories : List (RuleCategory × List String) := []
  overrides : List (String × RuleConfig) := []

/-- A value of `Record<string, boolean | RuleConfig>`. -/
inductive BoolOrRuleConfig where
  | bool (b : Bool)
  | cfg (c : RuleConfig)

namespace RuleRegistry

/-- `register`: throws when the id is already present, otherwise stores the
rule and indexes it by category. -/
def register (reg : RuleRegistry) (rule : Rule) : Except String RuleRegistry :=
  if (lookupKey rule.id reg.rules).isSome then
    .error ("Rule with ID \"" ++ rule.id ++ "\" is already registered")
  else
    let cats :=
      match reg.ruleCategories.lookup rule.category with
      | none => (rule.category, [rule.id]) :: reg.ruleCategories
      | some ids =>
        reg.ruleCategories.map
          (fun c => if c.1 = rule.category then (c.1, ids ++ [rule.id]) else c)
    .ok { reg with rules := setKey rule.id rule reg.rules, ruleCategories := cats }

/-- `applyOverrides`: a bare boolean is sugar for `{enabled: bool}`; each
entry is stored into the overrides map keyed by rule id. -/
def applyOverrides (reg : RuleRegistry)
    (ruleConfigs : List (String × BoolOrRuleConfig)) : RuleRegistry :=
  ruleConfigs.foldl
    (fun r entry =>
      match entry.2 with
      | .bool b => { r with overrides := setKey entry.1 { enabled := some b } r.overrides }
      | .cfg c => { r with overrides := setKey entry.1 c r.overrides })
    reg

/-- `getEffectiveRule(id, defaultSeverity?)` from `RuleRegistry.ts`:
unknown id gives `null`; with no stored override the base rule is returned
as-is; otherwise the rule is merged with the override.  (Severity strings
are never empty, so the source's `defaultSeverity || rule.severity` agrees
with `??`.) -/
def getEffectiveRule (reg : RuleRegistry) (ruleId : String)
    (defaultSeverity : Option IssueSeverity := none) : Option Rule :=
  match lookupKey ruleId reg.rules with
  | none => none
  | some rule =>
    match lookupKey ruleId reg.overrides with
    | none => some rule
    | some ov =>
      some { rule with
        enabled := ov.enabled.orElse (fun _ => rule.enabled)
        severity := ov.severity.getD (defaultSeverity.getD rule.severity)
        options := some (mergeMap (rule.options.getD []) (ov.options.getD [])) }

/-- `isEnabled`: the effective rule exists and its `enabled` is not
literally `false` (absent defaults to enabled). -/
def isEnabled (reg : RuleRegistry) (ruleId : String) : Bool :=
  match getEffectiveRule reg ruleId with
  | none => false
  | some rule => !(rule.enabled == some false)

end RuleRegistry

/-! ## Rule engine (`RuleEngine`) -/

/-- The canonical issue shape produced by `normalizeResults`.  Fields hold
raw JS values: the source assigns whatever the rule returned (after a
type *assertion*, which has no runtime effect). -/
structure ValidationIssue where
  ruleId : JsVal
  ruleDescription : JsVal
  severity : JsVal
  path : JsVal
  line : JsVal
  column : JsVal
  message : JsVal
  suggestion : JsVal
  category : JsVal

/-- JS property read on an object: an absent key yields `undefined`. -/
def getProp (fields : List (String × JsVal)) (k : String) : JsVal :=
  (lookupKey k fields).getD .undefined

/-- `a || b`: the left value when truthy, otherwise the right. -/
def jsOr (v d : JsVal) : JsVal :=
  if truthy v then v else d

/-- `a || undefined`: the value when truthy, otherwise `undefined`. -/
def jsOrUndefined (v : JsVal) : JsVal :=
  if truthy v then v else .undefined

/-- `typeof v === 'object'` view of a value's string-keyed properties.
Arrays have `typeof` `'object'` but expose no `message` property. -/
def asObjFields : JsVal → Option (List (String × JsVal))
  | .obj fields => some fields
  | .arr _ => some []
  | _ => none

/-- One step of `normalizeResults`'s `.map`: drop falsy or non-object
elements and objects without a `message` key; project the rest onto the
canonical issue shape, defaulting each field with `||`. -/
def normalizeElem (result : JsVal) (ruleId ruleName : String)
    (severity : IssueSeverity) : Option ValidationIssue :=
  if !(truthy result) then none
  else
    match asObjFields result with
    | none => none
    | some fields =>
      match lookupKey "message" fields with
      | none => none
      | some _ =>
        some {
          ruleId := jsOr (getProp fields "ruleId") (.str ruleId)
          ruleDescription := jsOr (getProp fields "ruleDescription") (.str ruleName)
          severity := jsOr (getProp fields "severity") (.str severity.toStr)
          path := jsOr (getProp fields "path") (.str "root")
          line := jsOrUndefined (getProp fields "line")
          column := jsOrUndefined (getProp fields "column")
          message := jsOr (getProp fields "message") (.str "")
          suggestion := jsOrUndefined (getProp fields "suggestion")
          category := jsOrUndefined (getProp fields "category") }

/-- `RuleEngine.normalizeResults`: non-array raw output yields no issues;
array elements are mapped and the dropped (`null`) ones filtered out. -/
def normalizeResults (results : JsVal) (ruleId ruleName : String)
    (severity : IssueSeverity) : List ValidationIssue :=
  match results with
  | .arr elems => elems.filterMap (fun r => normalizeElem r ruleId ruleName severity)
  | _ => []

/-- `RuleExecutionStats` (wall-clock `executionTime` is not modelled). -/
structure RuleExecutionStats where
  ruleId : String
  executed : Bool
  issuesFound : Nat
  error : Option String := none

/-- `RuleEngine.executeRule(ruleId, spec, defaultSeverity)`: missing rule
and disabled rule short-circuit; a throwing rule function is caught and
recorded in `stats.error`; otherwise the raw results are normalized. -/
def executeRule (reg : RuleRegistry) (ruleId : String) (spec : JsVal)
    (defaultSeverity : Option IssueSeverity := none) :
    List ValidationIssue × RuleExecutionStats :=
  match lookupKey ruleId reg.rules with
  | none =>
    ([], { ruleId := ruleId, executed := false, issuesFound := 0,
           error := some ("Rule \"" ++ ruleId ++ "\" not found") })
  | some rule =>
    if !(reg.isEnabled ruleId) then
      ([], { ruleId := ruleId, executed := false, issuesFound := 0 })
    else
      match reg.getEffectiveRule ruleId defaultSeverity with
      | none =>
        ([], { ruleId := ruleId, executed := false, issuesFound := 0,
               error := some ("Could not resolve rule configuration for \"" ++ ruleId ++ "\"") })
      | some effectiveRule =>
        match effectiveRule.fn spec effectiveRule.options with
        | .error message =>
          ([], { ruleId := ruleId, executed := false, issuesFound := 0,
                 error := some message })
        | .ok rawResults =>
          let issues := normalizeResults rawResults ruleId rule.name effectiveRule.severity
          (issues, { ruleId := ruleId, executed := true, issuesFound := issues.length })

/-- `RuleEngine.executeAll(spec, ruleIds?, defaultSeverity)`: iterate the
requested ids (all registered ids when omitted), concatenating each rule's
issues and collecting each rule's stats. -/
def executeAll (reg : RuleRegistry) (spec : JsVal)
    (ruleIds : Option (List String) := none)
    (defaultSeverity : Option IssueSeverity := none) :
    List ValidationIssue × List RuleExecutionStats :=
  let toExecute := ruleIds.getD (reg.rules.map Prod.fst)
  toExecute.foldl
    (fun acc ruleId =>
      let r := executeRule reg ruleId spec defaultSeverity
      (acc.1 ++ r.1, acc.2 ++ [r.2]))
    ([], [])

/-! ## Validator orchestrator (`Validator.ts`) -/

/-- Outcome of the external spec-loader collaborator as consumed by
`Validator.validate` (`loadResult.success/spec/error/warnings`). -/
structure LoadResult where
  success : Bool
  spec : Option JsVal := none
  error : Option String := none
  warnings : Option (List String) := none

/-- The `stats` block of a `ValidationResult` (timings not modelled). -/
structure ValidationRunStats where
  rulesExecuted : Nat
  issuesFound : Nat

/-- The `metadata` block of a `ValidationResult` (`validatedAt` not
modelled). -/
structure ValidationMetadata where
  configPath : Option String := none
  ruleCount : Nat
  warnings : Option (List String) := none
  error : Option String := none

/-- `ValidationResult` as assembled by the orchestrator. -/
structure ValidationResult where
  spec : Option JsVal
  valid : Bool
  issues : List ValidationIssue
  stats : ValidationRunStats
  metadata : ValidationMetadata

/-- `Validator.validate(specPath, defaultSeverity?)`, with the loader's
outcome passed in as data (`hasConfig` reflects `this.config` being set).
A failed load reports through the result; a successful load executes all
enabled rules and computes `valid` from the error-severity issue count. -/
def validate (reg : RuleRegistry) (hasConfig : Bool) (loadResult : LoadResult)
    (defaultSeverity : Option IssueSeverity := none) : ValidationResult :=
  if !loadResult.success then
    { spec := none, valid := false, issues := [],
      stats := { rulesExecuted := 0, issuesFound := 0 },
      metadata := { configPath := if hasConfig then some "provided" else none,
                    ruleCount := reg.rules.length,
                    warnings := loadResult.warnings,
                    error := loadResult.error } }
  else
    let spec := loadResult.spec.getD .undefined
    let enabledRuleIds := (reg.rules.map Prod.fst).filter (fun id => reg.isEnabled id)
    let r := executeAll reg spec (some enabledRuleIds)
      (some (defaultSeverity.getD .warning))
    let errorCount := (r.1.filter (fun i => i.severity.isStrEq "error")).length
    { spec := some spec, valid := errorCount == 0, issues := r.1,
      stats := { rulesExecuted := (r.2.filter (fun s => s.executed)).length,
                 issuesFound := r.1.length },
      metadata := { configPath := if hasConfig then some "provided" else none,
                    ruleCount := reg.rules.length,
                    warnings := loadResult.warnings } }

/-! ## Configuration (`ConfigParser`, `defaults`) -/

/-- A `string | string[]` union value. -/
inductive StrOrArr where
  | str (s : String)
  | arr (l : List String)

/-- `Array.isArray(x) ? x : [x]` on an `extends` value. -/
def StrOrArr.toArray : StrOrArr → List String
  | .str s => [s]
  | .arr l => l

/-- `FileConfig` from `interfaces/Config.ts`. -/
structure FileConfig where
  pattern : String
  ignore : Option (List String) := none
  rules : Option StrOrArr := none

/-- `RulesetDefinition` from `interfaces/Config.ts` (`extends` is a Lean
keyword, hence `extendsRef`). -/
structure RulesetDefinition where
  rules : Option (List (String × BoolOrRuleConfig)) := none
  extendsRef : Option StrOrArr := none
  defaultSeverity : Option IssueSeverity := none

/-- `ApiGuardianConfig`: the top-level configuration document.  `custom`
holds the arbitrary pass-through top-level keys, which are not in the
fixed field set. -/
structure ApiGuardianConfig where
  extendsRef : Option StrOrArr := none
  rules : Option (List (String × BoolOrRuleConfig)) := none
  rulesets : Option (List (String × RulesetDefinition)) := none
  files : Option (List FileConfig) := none
  defaultSeverity : Option IssueSeverity := none
  failOnWarnings : Option Bool := none
  showInfo : Option Bool := none
  custom : List (String × JsVal) := []

/-- A `ConfigError`'s message together with its `suggestion` detail. -/
structure ConfigError where
  message : String
  suggestion : Option String := none

/-- `ConfigParser.mergeConfigs(parent, child)`: scalars child-if-defined,
`files` replaced wholesale, `rules`/`rulesets` spread-merged (so always
present afterwards, child keys winning), `extends` excluded from the
result, and only the child's custom top-level keys copied over. -/
def mergeConfigs (parent child : ApiGuardianConfig) : ApiGuardianConfig :=
  { defaultSeverity := child.defaultSeverity.orElse (fun _ => parent.defaultSeverity)
    failOnWarnings :=
      match child.failOnWarnings with
      | some b => some b
      | none => parent.failOnWarnings
    showInfo :=
      match child.showInfo with
      | some b => some b
      | none => parent.showInfo
    files := child.files.orElse (fun _ => parent.files)
    rules := some (mergeMap (parent.rules.getD []) (child.rules.getD []))
    rulesets := some (mergeMap (parent.rulesets.getD []) (child.rulesets.getD []))
    extendsRef := none
    custom := child.custom }

/-- `STRICT_RULESET` from `defaults`. -/
def STRICT_RULESET : RulesetDefinition :=
  { defaultSeverity := some .error
    rules := some [
      ("paths-required", .bool true),
      ("info-required", .bool true),
      ("operation-id-required", .bool true),
      ("operation-tags-required", .bool true),
      ("operation-description-required", .bool true),
      ("schema-properties-required", .bool true),
      ("operation-description", .cfg { enabled := some true, severity := some .error }),
      ("operation-summary", .cfg { enabled := some true, severity := some .warning }),
      ("parameter-description", .cfg { enabled := some true, severity := some .warning }),
      ("schema-description", .cfg { enabled := some true, severity := some .warning }),
      ("path-naming-convention", .cfg { enabled := some true, severity := some .error, options := some [("casing", .str "kebab")] }),
      ("http-status-codes", .cfg { enabled := some true, severity := some .error }),
      ("success-response-required", .cfg { enabled := some true, severity := some .error }),
      ("error-response-required", .cfg { enabled := some true, severity := some .error }),
      ("version-format", .cfg { enabled := some true, severity := some .error }),
      ("contact-info-required", .cfg { enabled := some true, severity := some .warning }),
      ("no-api-key-in-url", .cfg { enabled := some true, severity := some .error }),
      ("require-correlation-id", .cfg { enabled := some true, severity := some .error })] }

/-- `STANDARD_RULESET` from `defaults`. -/
def STANDARD_RULESET : RulesetDefinition :=
  { defaultSeverity := some .warning
    extendsRef := some (.str "strict")
    rules := some [
      ("operation-summary", .cfg { enabled := some true, severity := some .info }),
      ("parameter-description", .cfg { enabled := some true, severity := some .info }),
      ("schema-description", .cfg { enabled := some true, severity := some .info }),
      ("contact-info-required", .cfg { enabled := some true, severity := some .info })] }

/-- `LENIENT_RULESET` from `defaults`. -/
def LENIENT_RULESET : RulesetDefinition :=
  { defaultSeverity := some .warning
    rules := some [
      ("paths-required", .bool true),
      ("info-required", .bool true),
      ("operation-tags-required", .bool true),
      ("operation-description-required", .bool true),
      ("http-status-codes", .cfg { enabled := some true, severity := some .warning }),
      ("success-response-required", .cfg { enabled := some true, severity := some .warning }),
      ("no-api-key-in-url", .cfg { enabled := some true, severity := some .error })] }

/-- `DEFAULT_CONFIG` from `defaults`: note it defines no top-level
`rules` map. -/
def DEFAULT_CONFIG : ApiGuardianConfig :=
  { defaultSeverity := some .warning
    failOnWarnings := some false
    showInfo := some true
    files := some [
      { pattern := "openapi.{json,yaml,yml}" },
      { pattern := "api/**/*.{json,yaml,yml}",
        ignore := some ["**/node_modules/**", "**/.git/**"] }]
    rulesets := some [
      ("strict", STRICT_RULESET),
      ("standard", STANDARD_RULESET),
      ("lenient", LENIENT_RULESET)] }

/-- `getPresetRuleset(level)`: lookup in the fixed built-in table; an
absent level (JS `undefined` index) finds nothing, and `??` turns the miss
into `null`. -/
def getPresetRuleset (level : Option String) : Option RulesetDefinition :=
  match level with
  | none => none
  | some l =>
    lookupKey l [
      ("strict", STRICT_RULESET),
      ("standard", STANDARD_RULESET),
      ("lenient", LENIENT_RULESET)]

/-- Split a character list at every occurrence of `c` (the groups between
separators, in order). -/
def splitChars (c : Char) : List Char → List (List Char)
  | [] => [[]]
  | x :: rest =>
    if x = c then [] :: splitChars c rest
    else
      match splitChars c rest with
      | [] => [[x]]
      | g :: gs => (x :: g) :: gs

/-- Kernel-computable model of `String.splitOn` for a one-character
separator (the only shape the source uses). -/
def strSplitOn (s : String) (c : Char) : List String :=
  (splitChars c s.data).map String.mk

/-- Kernel-computable model of `ext.includes(c)` / `String.contains`. -/
def strContains (s : String) (c : Char) : Bool :=
  s.data.any (fun x => x = c)

/-- Kernel-computable model of `String.startsWith`. -/
def strStartsWith (s pre : String) : Bool :=
  pre.data.isPrefixOf s.data

/-- Model of Node's `path.dirname` for slash-separated paths. -/
def dirname (p : String) : String :=
  String.intercalate "/" ((splitChars '/' p.data).dropLast.map String.mk)

/-- Model of `path.resolve(path.dirname(basePath), ext)` for the path
shapes exercised here (absolute base paths, `./`-relative or absolute
entries). -/
def resolvePath (basePath ext : String) : String :=
  if strStartsWith ext "/" then ext
  else if strStartsWith ext "./" then dirname basePath ++ "/" ++ ext.drop 2
  else dirname basePath ++ "/" ++ ext

/-- The filesystem of configuration files, keyed by resolved path: the
external `fs`/`loadConfig` collaboration reduced to a lookup. -/
def ConfigEnv := List (String × ApiGuardianConfig)

/-- Resolution of a single `extends` entry inside the loop of
`ConfigParser.resolveExtends`.  `recurse` is the recursive call the source
makes (through `loadConfig`) on the extended file's own config.  `.ok none`
models the loop's `continue` on the reserved `spectral` namespace. -/
def resolveExtendsEntry (env : ConfigEnv)
    (recurse : ApiGuardianConfig → String → Except ConfigError ApiGuardianConfig)
    (basePath ext : String) : Except ConfigError (Option ApiGuardianConfig) :=
  if strContains ext '/' || strContains ext '\\' then
    let extPath := resolvePath basePath ext
    match lookupKey extPath env with
    | none =>
      .error { message := "Config file not found: " ++ extPath,
               suggestion := some ("Check that the config file exists at: " ++ extPath) }
    | some loaded =>
      match recurse loaded extPath with
      | .error err => .error err
      | .ok extConfig => .ok (some extConfig)
  else
    let parts := strSplitOn ext ':'
    let ns := parts.headD ""
    let preset := parts[1]?
    if ns = "api-guardian" ∨ ns = "preset" then
      match getPresetRuleset preset with
      | none =>
        .error { message := "Unknown preset ruleset: " ++ ext,
                 suggestion := some "Use one of: api-guardian:strict, api-guardian:standard, api-guardian:lenient" }
      | some ruleset =>
        .ok (some { rulesets := some [(preset.getD "", ruleset)] })
    else if ns = "spectral" then
      .ok none
    else
      .error { message := "Unknown extends namespace: " ++ ns,
               suggestion := some "Use api-guardian:strict, api-guardian:standard, or api-guardian:lenient" }

/-- The `for` loop of `ConfigParser.resolveExtends`: each entry is
resolved in array order and merged into the running accumulator (later
entries are merged later, so they win on conflicts). -/
def resolveExtendsLoop (env : ConfigEnv)
    (recurse : ApiGuardianConfig → String → Except ConfigError ApiGuardianConfig) :
    List String → String → ApiGuardianConfig → Except ConfigError ApiGuardianConfig
  | [], _, merged => .ok merged
  | ext :: rest, basePath, merged =>
    match resolveExtendsEntry env recurse basePath ext with
    | .error err => .error err
    | .ok none => resolveExtendsLoop env recurse rest basePath merged
    | .ok (some extConfig) =>
      resolveExtendsLoop env recurse rest basePath (mergeConfigs merged extConfig)

/-- `ConfigParser.resolveExtends(config, basePath)`: no `extends` returns
the config untouched; otherwise the entries are folded (starting from
`DEFAULT_CONFIG`) and the config's own fields are merged last.  `fuel`
bounds the file-reference recursion depth, which the source leaves
unbounded. -/
def resolveExtends (env : ConfigEnv) :
    Nat → ApiGuardianConfig → String → Except ConfigError ApiGuardianConfig
  | 0, _, _ => .error { message := "Maximum extends recursion depth exceeded" }
  | fuel + 1, config, basePath =>
    match config.extendsRef with
    | none => .ok config
    | some e =>
      match resolveExtendsLoop env (fun c p => resolveExtends env fuel c p)
          e.toArray basePath DEFAULT_CONFIG with
      | .error err => .error err
      | .ok merged => .ok (mergeConfigs merged config)

/-! ## Concrete fixtures used by the example-based claims -/

/-- Base config of the three-file extends chain: `rule1=true, rule2=false`. -/
def baseChainCfg : ApiGuardianConfig :=
  { rules := some [("rule1", .bool true), ("rule2", .bool false)] }

/-- Middle config: extends the base file, sets `rule2=true, rule3=true`. -/
def middleChainCfg : ApiGuardianConfig :=
  { extendsRef := some (.str "./base.yaml")
    rules := some [("rule2", .bool true), ("rule3", .bool true)] }

/-- Top config: extends the middle file, sets `rule3=false`. -/
def topChainCfg : ApiGuardianConfig :=
  { extendsRef := some (.str "./middle.yaml")
    rules := some [("rule3", .bool false)] }

/-- The filesystem holding the three chained config files. -/
def chainEnv : ConfigEnv :=
  [("/cfg/base.yaml", baseChainCfg),
   ("/cfg/middle.yaml", middleChainCfg),
   ("/cfg/top.yaml", topChainCfg)]

/-- A sample rule function returning no issues. -/
def emptyRuleFn : RuleFunction := fun _ _ => .ok (.arr [])

/-- A sample registered rule with base severity `error`. -/
def ruleR1 : Rule :=
  { id := "r1", name := "Rule One", description := "sample rule",
    severity := .error, category := .structural, fn := emptyRuleFn }

/-! ## Helper lemmas -/

theorem lookupKey_append (k : String) (l1 l2 : List (String × α)) :
    lookupKey k (l1 ++ l2) = (lookupKey k l1).orElse (fun _ => lookupKey k l2) := by
  induction l1 with
  | nil => simp [lookupKey, Option.orElse]
  | cons kv rest ih =>
    by_cases h : kv.1 = k
    · simp [lookupKey, h, Option.orElse]
    · simp [lookupKey, h, ih]

theorem lookupKey_map_keys (k : String) (l : List (String × α)) (f : String → α → β) :
    lookupKey k (l.map (fun kv => (kv.1, f kv.1 kv.2))) = (lookupKey k l).map (f k) := by
  induction l with
  | nil => simp [lookupKey]
  | cons kv rest ih =>
    by_cases h : kv.1 = k
    · subst h; simp [lookupKey, ih]
    · simp [lookupKey, h, ih]

theorem lookupKey_filter_of_true (k : String) (l : List (String × α))
    (q : String × α → Bool) (hq : ∀ v, q (k, v) = true) :
    lookupKey k (l.filter q) = lookupKey k l := by
  induction l with
  | nil => simp
  | cons kv rest ih =>
    by_cases h : kv.1 = k
    · have hkv : kv = (k, kv.2) := by
        cases kv; simp_all
      rw [hkv]
      simp [List.filter, hq kv.2, lookupKey]
    · cases hqv : q kv with
      | true => simp [List.filter, hqv, lookupKey, h, ih]
      | false => simp [List.filter, hqv, lookupKey, h, ih]

theorem lookupKey_mergeMap (k : String) (p c : List (String × α)) :
    lookupKey k (mergeMap p c) = (lookupKey k c).orElse (fun _ => lookupKey k p) := by
  unfold mergeMap
  rw [lookupKey_append, lookupKey_map_keys k p (fun key v => (lookupKey key c).getD v)]
  cases hp : lookupKey k p with
  | some b =>
    cases hc : lookupKey k c with
    | some x => simp [Option.orElse, hc]
    | none => simp [Option.orElse, hc]
  | none =>
    rw [lookupKey_filter_of_true k c _ (fun v => by simp [hp])]
    cases hc : lookupKey k c with
    | some x => simp [Option.orElse]
    | none => simp [Option.orElse]

theorem lookupKey_setKey (k : String) (v : α) (l : List (String × α)) :
    lookupKey k (setKey k v l) = some v := by
  induction l with
  | nil => simp [setKey, lookupKey]
  | cons kv rest ih =>
    by_cases h : kv.1 = k
    · simp [setKey, h, lookupKey]
    · simp [setKey, h, lookupKey, ih]

theorem executeAll_foldl_general (reg : RuleRegistry) (spec : JsVal)
    (d : Option IssueSeverity) (ids : List String)
    (acc : List ValidationIssue × List RuleExecutionStats) :
    ids.foldl
      (fun acc ruleId =>
        let r := executeRule reg ruleId spec d
        (acc.1 ++ r.1, acc.2 ++ [r.2])) acc =
    (acc.1 ++ ids.flatMap (fun i => (executeRule reg i spec d).1),
     acc.2 ++ ids.map (fun i => (executeRule reg i spec d).2)) := by
  induction ids generalizing acc with
  | nil => simp
  | cons i rest ih => simp [List.foldl, ih]

/-- `executeAll` is exactly the per-rule results, concatenated in order:
each rule's contribution depends only on its own execution. -/
theorem executeAll_eq (reg : RuleRegistry) (spec : JsVal)
    (ruleIds : Option (List String)) (d : Option IssueSeverity) :
    executeAll reg spec ruleIds d =
      ((ruleIds.getD (reg.rules.map Prod.fst)).flatMap
        (fun i => (executeRule reg i spec d).1),
       (ruleIds.getD (reg.rules.map Prod.fst)).map
        (fun i => (executeRule reg i spec d).2)) := by
  unfold executeAll
  rw [executeAll_foldl_general]
  simp

/-! ## Claims about the rule registry -/

/-- C2 counterexample: for a registered rule with severity `error` and no
stored override, `getEffectiveRule(id, info)` returns the rule's own
severity `error`, not the supplied default `info` — refuting the claim's
"including when no override is stored at all". -/
theorem getEffectiveRule_no_override_default_counterexample :
    (RuleRegistry.getEffectiveRule { rules := [("r1", ruleR1)] } "r1"
      (some .info)).map (fun r => r.severity) = some .error ∧
    IssueSeverity.error ≠ IssueSeverity.info := by
  exact ⟨rfl, by decide⟩

/-- C2 (amended): `getEffectiveRule` returns `null` for an unknown id;
with no stored override it returns the base rule unchanged (ignoring
`defaultSeverity`); with a stored override it merges
`enabled = override.enabled ?? rule.enabled`,
`severity = override.severity ?? defaultSeverity ?? rule.severity`, and
shallow-merges options with override keys winning and base keys absent
from the override preserved. -/
theorem getEffectiveRule_merge_semantics (reg : RuleRegistry) (id : String)
    (d : Option IssueSeverity) :
    (lookupKey id reg.rules = none → reg.getEffectiveRule id d = none) ∧
    (∀ rule, lookupKey id reg.rules = some rule →
      (lookupKey id reg.overrides = none → reg.getEffectiveRule id d = some rule) ∧
      (∀ ov, lookupKey id reg.overrides = some ov →
        ∃ eff, reg.getEffectiveRule id d = some eff ∧
          eff.enabled = ov.enabled.orElse (fun _ => rule.enabled) ∧
          eff.severity = ov.severity.getD (d.getD rule.severity) ∧
          ∀ k, lookupKey k (eff.options.getD []) =
            (lookupKey k (ov.options.getD [])).orElse
              (fun _ => lookupKey k (rule.options.getD [])))) := by
  refine ⟨fun h => ?_, fun rule hr => ⟨fun ho => ?_, fun ov ho => ?_⟩⟩
  · simp [RuleRegistry.getEffectiveRule, h]
  · simp [RuleRegistry.getEffectiveRule, hr, ho]
  · refine ⟨{ rule with
        enabled := ov.enabled.orElse (fun _ => rule.enabled),
        severity := ov.severity.getD (d.getD rule.severity),
        options := some (mergeMap (rule.options.getD []) (ov.options.getD [])) },
      ?_, rfl, rfl, fun k => lookupKey_mergeMap k (rule.options.getD []) (ov.options.getD [])⟩
    simp [RuleRegistry.getEffectiveRule, hr, ho]

/-- C2 witness: the three branches of `getEffectiveRule_merge_semantics`
applied to concrete registries. -/
theorem getEffectiveRule_merge_semantics_witness :
    (RuleRegistry.getEffectiveRule { rules := [("r1", ruleR1)] } "zzz" none = none) ∧
    (RuleRegistry.getEffectiveRule { rules := [("r1", ruleR1)] } "r1" (some .info) =
      some ruleR1) ∧
    (∃ eff,
      RuleRegistry.getEffectiveRule
        { rules := [("r1", ruleR1)],
          overrides := [("r1", { enabled := some false })] } "r1" (some .info) = some eff ∧
      eff.enabled = (some false : Option Bool).orElse (fun _ => ruleR1.enabled) ∧
      eff.severity = (none : Option IssueSeverity).getD
        ((some IssueSeverity.info).getD ruleR1.severity) ∧
      ∀ k, lookupKey k (eff.options.getD []) =
        (lookupKey k (([] : List (String × JsVal)))).orElse
          (fun _ => lookupKey k (ruleR1.options.getD []))) := by
  refine ⟨(getEffectiveRule_merge_semantics { rules := [("r1", ruleR1)] } "zzz" none).1 rfl,
    ((getEffectiveRule_merge_semantics { rules := [("r1", ruleR1)] } "r1"
      (some .info)).2 ruleR1 rfl).1 rfl, ?_⟩
  exact ((getEffectiveRule_merge_semantics
      { rules := [("r1", ruleR1)], overrides := [("r1", { enabled := some false })] }
      "r1" (some .info)).2 ruleR1 rfl).2 { enabled := some false } rfl

/-- C3: with an override `{severity: warning}` stored, the effective
severity is `warning`; with no override stored, `getEffectiveRule(id, info)`
returns the base rule, so its own severity `error` outranks the supplied
default. -/
theorem getEffectiveRule_severity_precedence (reg : RuleRegistry) (id : String)
    (rule : Rule) :
    (rule.severity = .error →
      lookupKey id reg.rules = some rule →
      lookupKey id reg.overrides = some { severity := some .warning } →
      (reg.getEffectiveRule id).map (fun r => r.severity) = some .warning) ∧
    (lookupKey id reg.rules = some rule →
      lookupKey id reg.overrides = none →
      reg.getEffectiveRule id (some .info) = some rule) := by
  constructor
  · intro _ hr ho
    simp [RuleRegistry.getEffectiveRule, hr, ho]
  · intro hr ho
    simp [RuleRegistry.getEffectiveRule, hr, ho]

/-- C3 witness: both precedence branches at a concrete registry holding
`ruleR1` (severity `error`). -/
theorem getEffectiveRule_severity_precedence_witness :
    ((RuleRegistry.getEffectiveRule
      { rules := [("r1", ruleR1)],
        overrides := [("r1", { severity := some .warning })] } "r1").map
      (fun r => r.severity) = some .warning) ∧
    (RuleRegistry.getEffectiveRule { rules := [("r1", ruleR1)] } "r1" (some .info) =
      some ruleR1) := by
  exact ⟨(getEffectiveRule_severity_precedence _ "r1" ruleR1).1 rfl rfl rfl,
    (getEffectiveRule_severity_precedence _ "r1" ruleR1).2 rfl rfl⟩

/-- C7 counterexample: applying `{enabled: false}` then `{severity: warning}`
for the same id leaves a stored override whose `enabled` is absent — the
second application did not merge onto the first, refuting the claim. -/
theorem applyOverrides_replace_counterexample :
    ((lookupKey "r1"
      ((( { rules := [("r1", ruleR1)] } : RuleRegistry).applyOverrides
          [("r1", .cfg { enabled := some false })]).applyOverrides
          [("r1", .cfg { severity := some .warning })]).overrides).map
      (fun c => c.enabled)) = some none ∧
    (none : Option Bool) ≠ some false := by
  exact ⟨rfl, by simp⟩

/-- C7 (amended): re-applying an override for an id replaces the stored
override wholesale (last write wins per id; fields absent from the second
override are not retained from the first), never mutates the stored base
rules, and a bare boolean stores `{enabled: b}`. -/
theorem applyOverrides_last_write_wins (reg : RuleRegistry) (id : String)
    (o1 o2 : RuleConfig) :
    (lookupKey id
      ((reg.applyOverrides [(id, .cfg o1)]).applyOverrides
        [(id, .cfg o2)]).overrides = some o2) ∧
    ((reg.applyOverrides [(id, .cfg o1)]).applyOverrides [(id, .cfg o2)]).rules =
      reg.rules ∧
    (∀ b, lookupKey id (reg.applyOverrides [(id, .bool b)]).overrides =
      some ({ enabled := some b } : RuleConfig)) := by
  refine ⟨?_, rfl, fun b => ?_⟩
  · simp only [RuleRegistry.applyOverrides, List.foldl]
    exact lookupKey_setKey id o2 _
  · simp only [RuleRegistry.applyOverrides, List.foldl]
    exact lookupKey_setKey id ({ enabled := some b } : RuleConfig) _

/-! ## Claims about the rule engine -/

/-- A rule whose function always throws `"boom"`. -/
def boomRule : Rule :=
  { id := "boom-rule", name := "Boom Rule", description := "always throws",
    severity := .error, category := .structural,
    fn := fun _ _ => .error "boom" }

/-- A rule returning one raw issue `{message: "x"}`. -/
def okRule : Rule :=
  { id := "ok-rule", name := "OK Rule", description := "one issue",
    severity := .warning, category := .documentation,
    fn := fun _ _ => .ok (.arr [.obj [("message", .str "x")]]) }

/-- A rule registered as disabled. -/
def offRule : Rule :=
  { id := "off-rule", name := "Off Rule", description := "disabled",
    severity := .error, category := .rest, enabled := some false,
    fn := fun _ _ => .ok (.arr [.obj [("message", .str "never")]]) }

/-- The engine-claim registry: a throwing rule, a normal rule and a
disabled rule. -/
def engineReg : RuleRegistry :=
  { rules := [("boom-rule", boomRule), ("ok-rule", okRule), ("off-rule", offRule)] }

/-- C1: `executeRule` turns every failure into data — an unknown id
yields zero issues and an error message ending in " not found"; a
disabled rule yields zero issues, `executed = false` and no error; a
throwing rule function yields zero issues, `executed = false` and the
thrown message in `stats.error`; and `executeAll` is the independent
per-rule concatenation, so one failing rule never affects the others'
contributions. -/
theorem executeRule_failure_isolation (reg : RuleRegistry) (id : String)
    (spec : JsVal) (d : Option IssueSeverity) :
    (lookupKey id reg.rules = none →
      executeRule reg id spec d =
        ([], { ruleId := id, executed := false, issuesFound := 0,
               error := some (("Rule \"" ++ id ++ "\"") ++ " not found") })) ∧
    (∀ rule, lookupKey id reg.rules = some rule → reg.isEnabled id = false →
      executeRule reg id spec d =
        ([], { ruleId := id, executed := false, issuesFound := 0, error := none })) ∧
    (∀ rule eff msg, lookupKey id reg.rules = some rule → reg.isEnabled id = true →
      reg.getEffectiveRule id d = some eff → eff.fn spec eff.options = .error msg →
      executeRule reg id spec d =
        ([], { ruleId := id, executed := false, issuesFound := 0, error := some msg })) ∧
    (∀ ids, executeAll reg spec (some ids) d =
      (ids.flatMap (fun i => (executeRule reg i spec d).1),
       ids.map (fun i => (executeRule reg i spec d).2))) := by
  refine ⟨fun h => ?_, fun rule hr hd => ?_, fun rule eff msg hr he hg hf => ?_, fun ids => ?_⟩
  · simp [executeRule, h, String.append_assoc]
  · simp [executeRule, hr, hd]
  · simp [executeRule, hr, he, hg, hf]
  · rw [executeAll_eq]
    simp

/-- C1 witness: the four failure-isolation branches on `engineReg`; in
the batch, the throwing rule contributes an error stats entry while the
other rule still contributes its issue. -/
theorem executeRule_failure_isolation_witness :
    (executeRule engineReg "missing" .null none =
      ([], { ruleId := "missing", executed := false, issuesFound := 0,
             error := some "Rule \"missing\" not found" })) ∧
    (executeRule engineReg "off-rule" .null none =
      ([], { ruleId := "off-rule", executed := false, issuesFound := 0,
             error := none })) ∧
    (executeRule engineReg "boom-rule" .null none =
      ([], { ruleId := "boom-rule", executed := false, issuesFound := 0,
             error := some "boom" })) ∧
    (executeAll engineReg .null (some ["boom-rule", "ok-rule"]) none =
      (["boom-rule", "ok-rule"].flatMap
        (fun i => (executeRule engineReg i .null none).1),
       ["boom-rule", "ok-rule"].map
        (fun i => (executeRule engineReg i .null none).2))) := by
  exact ⟨(executeRule_failure_isolation engineReg "missing" .null none).1 rfl,
    (executeRule_failure_isolation engineReg "off-rule" .null none).2.1 offRule rfl rfl,
    (executeRule_failure_isolation engineReg "boom-rule" .null none).2.2.1
      boomRule boomRule "boom" rfl rfl rfl rfl,
    (executeRule_failure_isolation engineReg "x" .null none).2.2.2
      ["boom-rule", "ok-rule"]⟩

/-- Whether a raw value is a JS array (`Array.isArray`). -/
def JsVal.isArr : JsVal → Bool
  | .arr _ => true
  | _ => false

theorem jsOr_of_truthy (v d : JsVal) (h : truthy v = true) : jsOr v d = v := by
  simp [jsOr, h]

theorem jsOr_of_falsy (v d : JsVal) (h : truthy v = false) : jsOr v d = d := by
  simp [jsOr, h]

theorem jsOrUndefined_of_falsy (v : JsVal) (h : truthy v = false) :
    jsOrUndefined v = JsVal.undefined := by
  simp [jsOrUndefined, h]

theorem getProp_of_absent (f : List (String × JsVal)) (k : String)
    (h : lookupKey k f = none) : getProp f k = JsVal.undefined := by
  simp [getProp, h]

/-- The canonical projection of a surviving raw element's fields, as
built by `normalizeElem` (stated separately for the claims below). -/
def projectIssue (f : List (String × JsVal)) (rid rn : String)
    (sev : IssueSeverity) : ValidationIssue :=
  { ruleId := jsOr (getProp f "ruleId") (.str rid)
    ruleDescription := jsOr (getProp f "ruleDescription") (.str rn)
    severity := jsOr (getProp f "severity") (.str sev.toStr)
    path := jsOr (getProp f "path") (.str "root")
    line := jsOrUndefined (getProp f "line")
    column := jsOrUndefined (getProp f "column")
    message := jsOr (getProp f "message") (.str "")
    suggestion := jsOrUndefined (getProp f "suggestion")
    category := jsOrUndefined (getProp f "category") }

/-- C6 counterexample: a raw element supplying `ruleId: ""` (a falsy
string) does not override the default — the normalized issue carries the
executing rule's id, refuting the claim's unconditional "when supplied,
overrides". -/
theorem normalizeResults_falsy_supplied_counterexample :
    ((normalizeResults (.arr [.obj [("message", .str "m"), ("ruleId", .str "")]])
      "base-id" "Base" .warning).map (fun i => i.ruleId)) = [.str "base-id"] ∧
    JsVal.str "base-id" ≠ JsVal.str "" := by
  refine ⟨rfl, fun h => ?_⟩
  injection h with h2
  exact absurd h2 (by decide)

/-- C6 (amended): non-array raw output yields zero issues; elements that
are falsy, not of object type, or lack a `message` key are dropped
silently; surviving elements become one issue each, whose `ruleId`,
`ruleDescription` and `severity` take the raw element's value when that
value is truthy and the engine defaults (executing rule's id, rule's
name, effective severity) when it is falsy or absent, with `path`
defaulting to `"root"` and all other canonical fields absent when not
supplied. -/
theorem normalizeResults_contract (rid rn : String) (sev : IssueSeverity) :
    (∀ v, v.isArr = false → normalizeResults v rid rn sev = []) ∧
    (∀ e elems, truthy e = false →
      normalizeResults (.arr (e :: elems)) rid rn sev =
        normalizeResults (.arr elems) rid rn sev) ∧
    (∀ e elems, asObjFields e = none →
      normalizeResults (.arr (e :: elems)) rid rn sev =
        normalizeResults (.arr elems) rid rn sev) ∧
    (∀ e f elems, asObjFields e = some f → lookupKey "message" f = none →
      normalizeResults (.arr (e :: elems)) rid rn sev =
        normalizeResults (.arr elems) rid rn sev) ∧
    (∀ e f elems m, truthy e = true → asObjFields e = some f →
      lookupKey "message" f = some m →
      ∃ issue : ValidationIssue,
        normalizeResults (.arr (e :: elems)) rid rn sev =
          issue :: normalizeResults (.arr elems) rid rn sev ∧
        (truthy (getProp f "ruleId") = true → issue.ruleId = getProp f "ruleId") ∧
        (truthy (getProp f "ruleId") = false → issue.ruleId = JsVal.str rid) ∧
        (truthy (getProp f "ruleDescription") = true →
          issue.ruleDescription = getProp f "ruleDescription") ∧
        (truthy (getProp f "ruleDescription") = false →
          issue.ruleDescription = JsVal.str rn) ∧
        (truthy (getProp f "severity") = true → issue.severity = getProp f "severity") ∧
        (truthy (getProp f "severity") = false → issue.severity = JsVal.str sev.toStr) ∧
        (lookupKey "path" f = none → issue.path = JsVal.str "root") ∧
        (lookupKey "line" f = none → issue.line = JsVal.undefined) ∧
        (lookupKey "column" f = none → issue.column = JsVal.undefined) ∧
        (lookupKey "suggestion" f = none → issue.suggestion = JsVal.undefined) ∧
        (lookupKey "category" f = none → issue.category = JsVal.undefined)) := by
  refine ⟨fun v hv => ?_, fun e elems he => ?_, fun e elems he => ?_,
    fun e f elems hobj hmsg => ?_, fun e f elems m htr hobj hmsg => ?_⟩
  · cases v <;> simp_all [normalizeResults, JsVal.isArr]
  · simp [normalizeResults, normalizeElem, he]
  · cases htr : truthy e <;> simp [normalizeResults, normalizeElem, htr, he]
  · cases htr : truthy e <;> simp [normalizeResults, normalizeElem, htr, hobj, hmsg]
  · refine ⟨projectIssue f rid rn sev,
      by simp [normalizeResults, normalizeElem, projectIssue, htr, hobj, hmsg],
      ?_, ?_, ?_, ?_, ?_, ?_, ?_, ?_, ?_, ?_, ?_⟩ <;> intro h
    · exact jsOr_of_truthy _ _ h
    · exact jsOr_of_falsy _ _ h
    · exact jsOr_of_truthy _ _ h
    · exact jsOr_of_falsy _ _ h
    · exact jsOr_of_truthy _ _ h
    · exact jsOr_of_falsy _ _ h
    · show jsOr (getProp f "path") (JsVal.str "root") = JsVal.str "root"
      rw [getProp_of_absent f "path" h]
      exact jsOr_of_falsy _ _ rfl
    · show jsOrUndefined (getProp f "line") = JsVal.undefined
      rw [getProp_of_absent f "line" h]
      exact jsOrUndefined_of_falsy _ rfl
    · show jsOrUndefined (getProp f "column") = JsVal.undefined
      rw [getProp_of_absent f "column" h]
      exact jsOrUndefined_of_falsy _ rfl
    · show jsOrUndefined (getProp f "suggestion") = JsVal.undefined
      rw [getProp_of_absent f "suggestion" h]
      exact jsOrUndefined_of_falsy _ rfl
    · show jsOrUndefined (getProp f "category") = JsVal.undefined
      rw [getProp_of_absent f "category" h]
      exact jsOrUndefined_of_falsy _ rfl

/-- C6 witness: the branches of `normalizeResults_contract` at concrete
raw outputs (a non-array, a falsy element, a string element, an object
without `message`, and a surviving minimal `{message: "x"}` element). -/
theorem normalizeResults_contract_witness :
    (normalizeResults (.str "oops") "rid" "Rule Name" .warning = []) ∧
    (normalizeResults (.arr [.null]) "rid" "Rule Name" .warning =
      normalizeResults (.arr []) "rid" "Rule Name" .warning) ∧
    (normalizeResults (.arr [.str "note"]) "rid" "Rule Name" .warning =
      normalizeResults (.arr []) "rid" "Rule Name" .warning) ∧
    (normalizeResults (.arr [.obj [("path", .str "$.x")]]) "rid" "Rule Name" .warning =
      normalizeResults (.arr []) "rid" "Rule Name" .warning) ∧
    (∃ issue : ValidationIssue,
      normalizeResults (.arr [.obj [("message", .str "x")]]) "rid" "Rule Name" .warning =
        issue :: normalizeResults (.arr []) "rid" "Rule Name" .warning ∧
      (truthy (getProp [("message", .str "x")] "ruleId") = true →
        issue.ruleId = getProp [("message", .str "x")] "ruleId") ∧
      (truthy (getProp [("message", .str "x")] "ruleId") = false →
        issue.ruleId = JsVal.str "rid") ∧
      (truthy (getProp [("message", .str "x")] "ruleDescription") = true →
        issue.ruleDescription = getProp [("message", .str "x")] "ruleDescription") ∧
      (truthy (getProp [("message", .str "x")] "ruleDescription") = false →
        issue.ruleDescription = JsVal.str "Rule Name") ∧
      (truthy (getProp [("message", .str "x")] "severity") = true →
        issue.severity = getProp [("message", .str "x")] "severity") ∧
      (truthy (getProp [("message", .str "x")] "severity") = false →
        issue.severity = JsVal.str (IssueSeverity.warning).toStr) ∧
      (lookupKey "path" [("message", JsVal.str "x")] = none → issue.path = JsVal.str "root") ∧
      (lookupKey "line" [("message", JsVal.str "x")] = none → issue.line = JsVal.undefined) ∧
      (lookupKey "column" [("message", JsVal.str "x")] = none → issue.column = JsVal.undefined) ∧
      (lookupKey "suggestion" [("message", JsVal.str "x")] = none →
        issue.suggestion = JsVal.undefined) ∧
      (lookupKey "category" [("message", JsVal.str "x")] = none →
        issue.category = JsVal.undefined)) := by
  exact ⟨(normalizeResults_contract "rid" "Rule Name" .warning).1 (.str "oops") rfl,
    (normalizeResults_contract "rid" "Rule Name" .warning).2.1 .null [] rfl,
    (normalizeResults_contract "rid" "Rule Name" .warning).2.2.1 (.str "note") [] rfl,
    (normalizeResults_contract "rid" "Rule Name" .warning).2.2.2.1
      (.obj [("path", .str "$.x")]) [("path", .str "$.x")] [] rfl rfl,
    (normalizeResults_contract "rid" "Rule Name" .warning).2.2.2.2
      (.obj [("message", .str "x")]) [("message", .str "x")] [] (.str "x") rfl rfl rfl⟩

/-- C10 counterexample: an object element whose `message` is the truthy
non-string `5` is kept with its raw value — the normalized message is
`5`, not the empty string the claim asserts for every non-string
message. -/
theorem normalizeResults_nonstring_message_counterexample :
    ((normalizeResults (.arr [.obj [("message", JsVal.num 5)]]) "r" "R" .error).map
      (fun i => i.message)) = [.num 5] ∧
    JsVal.num 5 ≠ JsVal.str "" := by
  refine ⟨rfl, fun h => ?_⟩
  cases h

/-- C10 (amended): dropping is keyed on the *presence* of `message`, not
its value — an object element containing a `message` key is never
discarded, whatever the value; a falsy value (e.g. `null`, `0`, `""`)
normalizes to the empty string, while a truthy value (even a non-string)
is carried through unchanged. -/
theorem normalizeResults_message_presence (f : List (String × JsVal)) (m : JsVal)
    (rid rn : String) (sev : IssueSeverity)
    (hm : lookupKey "message" f = some m) :
    (normalizeResults (.arr [.obj f]) rid rn sev).length = 1 ∧
    (truthy m = false →
      (normalizeResults (.arr [.obj f]) rid rn sev).map (fun i => i.message) =
        [.str ""]) ∧
    (truthy m = true →
      (normalizeResults (.arr [.obj f]) rid rn sev).map (fun i => i.message) =
        [m]) := by
  refine ⟨?_, fun hfalsy => ?_, fun htruthy => ?_⟩ <;>
    simp [normalizeResults, normalizeElem, asObjFields, hm, jsOr, getProp,
      show truthy (JsVal.obj f) = true from rfl]
  · simp [hfalsy]
  · simp [htruthy]

/-- C10 witness: elements with falsy `message` values `null`, `""` and
`0` all survive with message `""`, and a truthy non-string `message`
value `5` survives carrying `5`. -/
theorem normalizeResults_message_presence_witness :
    (lookupKey "message" [("message", JsVal.null)] = some .null ∧
      (normalizeResults (.arr [.obj [("message", JsVal.null)]]) "r" "R" .error).map
        (fun i => i.message) = [.str ""]) ∧
    (lookupKey "message" [("message", JsVal.str "")] = some (.str "") ∧
      (normalizeResults (.arr [.obj [("message", JsVal.str "")]]) "r" "R" .error).map
        (fun i => i.message) = [.str ""]) ∧
    (lookupKey "message" [("message", JsVal.num 0)] = some (.num 0) ∧
      (normalizeResults (.arr [.obj [("message", JsVal.num 0)]]) "r" "R" .error).map
        (fun i => i.message) = [.str ""]) ∧
    (lookupKey "message" [("message", JsVal.num 5)] = some (.num 5) ∧
      (normalizeResults (.arr [.obj [("message", JsVal.num 5)]]) "r" "R" .error).length = 1 ∧
      (normalizeResults (.arr [.obj [("message", JsVal.num 5)]]) "r" "R" .error).map
        (fun i => i.message) = [.num 5]) := by
  exact ⟨⟨rfl, (normalizeResults_message_presence [("message", JsVal.null)] JsVal.null
      "r" "R" .error rfl).2.1 rfl⟩,
    ⟨rfl, (normalizeResults_message_presence [("message", JsVal.str "")] (JsVal.str "")
      "r" "R" .error rfl).2.1 rfl⟩,
    ⟨rfl, (normalizeResults_message_presence [("message", JsVal.num 0)] (JsVal.num 0)
      "r" "R" .error rfl).2.1 rfl⟩,
    ⟨rfl, (normalizeResults_message_presence [("message", JsVal.num 5)] (JsVal.num 5)
      "r" "R" .error rfl).1,
      (normalizeResults_message_presence [("message", JsVal.num 5)] (JsVal.num 5)
      "r" "R" .error rfl).2.2 rfl⟩⟩

/-! ## Claims about the validator orchestrator -/

/-- C8: `validate` never throws — a failed load yields a complete result
with `spec = null`, `valid = false`, no issues and the load error message
in `metadata.error`; a successful load yields `valid = true` exactly when
the result contains no issue of severity `error`. -/
theorem validate_reports_never_throws (reg : RuleRegistry) (hc : Bool)
    (lr : LoadResult) (d : Option IssueSeverity) :
    (lr.success = false →
      (validate reg hc lr d).spec = none ∧
      (validate reg hc lr d).valid = false ∧
      (validate reg hc lr d).issues = [] ∧
      (validate reg hc lr d).metadata.error = lr.error) ∧
    (lr.success = true →
      ((validate reg hc lr d).valid = true ↔
        ((validate reg hc lr d).issues.filter
          (fun i => i.severity.isStrEq "error")).length = 0)) := by
  constructor
  · intro h
    refine ⟨?_, ?_, ?_, ?_⟩ <;> simp [validate, h]
  · intro h
    simp [validate, h]

/-- A rule that reports one issue of severity `error` for any document. -/
def alwaysErrorRule : Rule :=
  { id := "always-error", name := "Always Error", description := "one error issue",
    severity := .error, category := .security,
    fn := fun _ _ => .ok (.arr [.obj [("message", .str "bad")]]) }

/-- C8 witness: a failed load reported as data, and the `valid`
computation on an empty registry (no issues, valid) and on a registry
whose rule emits an error-severity issue (invalid). -/
theorem validate_reports_never_throws_witness :
    ((validate { rules := [] } true { success := false, error := some "Spec file not found: x" }
        none).spec = none ∧
      (validate { rules := [] } true { success := false, error := some "Spec file not found: x" }
        none).valid = false ∧
      (validate { rules := [] } true { success := false, error := some "Spec file not found: x" }
        none).issues = [] ∧
      (validate { rules := [] } true { success := false, error := some "Spec file not found: x" }
        none).metadata.error = some "Spec file not found: x") ∧
    ((validate { rules := [] } false { success := true, spec := some .null } none).valid = true ↔
      (((validate { rules := [] } false { success := true, spec := some .null } none).issues.filter
        (fun i => i.severity.isStrEq "error")).length = 0)) ∧
    ((validate { rules := [("always-error", alwaysErrorRule)] } false
        { success := true, spec := some .null } none).valid = true ↔
      (((validate { rules := [("always-error", alwaysErrorRule)] } false
        { success := true, spec := some .null } none).issues.filter
        (fun i => i.severity.isStrEq "error")).length = 0)) := by
  exact ⟨(validate_reports_never_throws { rules := [] } true
      { success := false, error := some "Spec file not found: x" } none).1 rfl,
    (validate_reports_never_throws { rules := [] } false
      { success := true, spec := some .null } none).2 rfl,
    (validate_reports_never_throws { rules := [("always-error", alwaysErrorRule)] } false
      { success := true, spec := some .null } none).2 rfl⟩

/-! ## Claims about configuration merging and extends resolution -/

/-- C5: `mergeConfigs` takes each scalar field from the child when
defined and from the parent otherwise; replaces `files` wholesale;
shallow-merges `rules` and `rulesets` per key with the child's whole
value winning; and on the spec's example produces
`{a: true, b: true, c: true}`. -/
theorem mergeConfigs_contract (parent child : ApiGuardianConfig) :
    ((∀ v, child.defaultSeverity = some v →
        (mergeConfigs parent child).defaultSeverity = some v) ∧
      (child.defaultSeverity = none →
        (mergeConfigs parent child).defaultSeverity = parent.defaultSeverity)) ∧
    ((∀ b, child.failOnWarnings = some b →
        (mergeConfigs parent child).failOnWarnings = some b) ∧
      (child.failOnWarnings = none →
        (mergeConfigs parent child).failOnWarnings = parent.failOnWarnings)) ∧
    ((∀ b, child.showInfo = some b → (mergeConfigs parent child).showInfo = some b) ∧
      (child.showInfo = none →
        (mergeConfigs parent child).showInfo = parent.showInfo)) ∧
    ((∀ fs, child.files = some fs → (mergeConfigs parent child).files = some fs) ∧
      (child.files = none → (mergeConfigs parent child).files = parent.files)) ∧
    (∀ k, lookupKey k ((mergeConfigs parent child).rules.getD []) =
      (lookupKey k (child.rules.getD [])).orElse
        (fun _ => lookupKey k (parent.rules.getD []))) ∧
    (∀ k, lookupKey k ((mergeConfigs parent child).rulesets.getD []) =
      (lookupKey k (child.rulesets.getD [])).orElse
        (fun _ => lookupKey k (parent.rulesets.getD []))) ∧
    ((mergeConfigs { rules := some [("a", .bool true), ("b", .bool false)] }
        { rules := some [("b", .bool true), ("c", .bool true)] }).rules =
      some [("a", .bool true), ("b", .bool true), ("c", .bool true)]) := by
  refine ⟨⟨fun v h => ?_, fun h => ?_⟩, ⟨fun b h => ?_, fun h => ?_⟩,
    ⟨fun b h => ?_, fun h => ?_⟩, ⟨fun fs h => ?_, fun h => ?_⟩,
    fun k => ?_, fun k => ?_, rfl⟩
  · simp [mergeConfigs, h, Option.orElse]
  · simp [mergeConfigs, h, Option.orElse]
  · simp [mergeConfigs, h]
  · simp [mergeConfigs, h]
  · simp [mergeConfigs, h]
  · simp [mergeConfigs, h]
  · simp [mergeConfigs, h, Option.orElse]
  · simp [mergeConfigs, h, Option.orElse]
  · simpa [mergeConfigs] using
      lookupKey_mergeMap k (parent.rules.getD []) (child.rules.getD [])
  · simpa [mergeConfigs] using
      lookupKey_mergeMap k (parent.rulesets.getD []) (child.rulesets.getD [])

/-- A fully populated parent config for the C5 witness. -/
def parentCfgW : ApiGuardianConfig :=
  { defaultSeverity := some .warning
    failOnWarnings := some false
    showInfo := some true
    files := some [{ pattern := "openapi.yaml" }]
    rules := some [("a", .bool true), ("b", .bool false)] }

/-- A child config defining every merged field, for the C5 witness. -/
def childCfgW : ApiGuardianConfig :=
  { defaultSeverity := some .error
    failOnWarnings := some true
    showInfo := some false
    files := some [{ pattern := "api.yaml" }]
    rules := some [("b", .bool true), ("c", .bool true)] }

/-- C5 witness: each child-wins and parent-fallback branch of
`mergeConfigs_contract` at concrete configs (`childCfgW` defines every
field; the empty config defines none). -/
theorem mergeConfigs_contract_witness :
    ((mergeConfigs parentCfgW childCfgW).defaultSeverity = some .error) ∧
    ((mergeConfigs parentCfgW {}).defaultSeverity = parentCfgW.defaultSeverity) ∧
    ((mergeConfigs parentCfgW childCfgW).failOnWarnings = some true) ∧
    ((mergeConfigs parentCfgW {}).failOnWarnings = parentCfgW.failOnWarnings) ∧
    ((mergeConfigs parentCfgW childCfgW).showInfo = some false) ∧
    ((mergeConfigs parentCfgW {}).showInfo = parentCfgW.showInfo) ∧
    ((mergeConfigs parentCfgW childCfgW).files = some [{ pattern := "api.yaml" }]) ∧
    ((mergeConfigs parentCfgW {}).files = parentCfgW.files) := by
  exact ⟨(mergeConfigs_contract parentCfgW childCfgW).1.1 .error rfl,
    (mergeConfigs_contract parentCfgW {}).1.2 rfl,
    (mergeConfigs_contract parentCfgW childCfgW).2.1.1 true rfl,
    (mergeConfigs_contract parentCfgW {}).2.1.2 rfl,
    (mergeConfigs_contract parentCfgW childCfgW).2.2.1.1 false rfl,
    (mergeConfigs_contract parentCfgW {}).2.2.1.2 rfl,
    (mergeConfigs_contract parentCfgW childCfgW).2.2.2.1.1 [{ pattern := "api.yaml" }] rfl,
    (mergeConfigs_contract parentCfgW {}).2.2.2.1.2 rfl⟩

theorem resolveExtends_some_eq (env : ConfigEnv) (fuel : Nat) (bp : String)
    (e : StrOrArr) (ru : Option (List (String × BoolOrRuleConfig)))
    (rs : Option (List (String × RulesetDefinition))) (fi : Option (List FileConfig))
    (ds : Option IssueSeverity) (fw si : Option Bool) (cu : List (String × JsVal)) :
    resolveExtends env (fuel + 1)
      { extendsRef := some e, rules := ru, rulesets := rs, files := fi,
        defaultSeverity := ds, failOnWarnings := fw, showInfo := si, custom := cu } bp =
      (match resolveExtendsLoop env (fun c p => resolveExtends env fuel c p) e.toArray bp
          DEFAULT_CONFIG with
        | .error err => .error err
        | .ok merged =>
          .ok (mergeConfigs merged
            { extendsRef := some e, rules := ru, rulesets := rs, files := fi,
              defaultSeverity := ds, failOnWarnings := fw, showInfo := si,
              custom := cu })) := rfl

/-- C4: extends resolution is deterministic and ordered — a config with
an `extends` array resolves to the loop's fold over the entries (the
document's own fields merged last, so they win over everything it
extends); each file entry is resolved recursively relative to its own
directory and merged into the running accumulator in array order (so
later entries win via `mergeConfigs`); and the three-file
base/middle/top chain yields
`{rule1: true, rule2: true, rule3: false}`. -/
theorem resolveExtends_ordered :
    (∀ env fuel cfg bp e, cfg.extendsRef = some e →
      resolveExtends env (fuel + 1) cfg bp =
        (resolveExtendsLoop env (fun c p => resolveExtends env fuel c p)
          e.toArray bp DEFAULT_CONFIG).map (fun merged => mergeConfigs merged cfg)) ∧
    (∀ env recurse ext rest bp merged c rc,
      (strContains ext '/' || strContains ext '\\') = true →
      lookupKey (resolvePath bp ext) env = some c →
      recurse c (resolvePath bp ext) = .ok rc →
      resolveExtendsLoop env recurse (ext :: rest) bp merged =
        resolveExtendsLoop env recurse rest bp (mergeConfigs merged rc)) ∧
    ((resolveExtends chainEnv 5 topChainCfg "/cfg/top.yaml").toOption.map
        (fun r => r.rules) =
      some (some [("rule1", .bool true), ("rule2", .bool true),
        ("rule3", .bool false)])) := by
  refine ⟨fun env fuel cfg bp e h => ?_, fun env recurse ext rest bp merged c rc h1 h2 h3 => ?_,
    rfl⟩
  · rcases cfg with ⟨er, ru, rs, fi, ds, fw, si, cu⟩
    cases h
    rw [resolveExtends_some_eq env fuel bp e ru rs fi ds fw si cu]
    cases resolveExtendsLoop env (fun c p => resolveExtends env fuel c p)
        (StrOrArr.toArray e) bp DEFAULT_CONFIG <;> rfl
  · simp [resolveExtendsLoop, resolveExtendsEntry, h1, h2, h3]

/-- The fully resolved middle config of the chain (defaults, then base,
then middle's own fields). -/
def middleResolved : ApiGuardianConfig :=
  mergeConfigs (mergeConfigs DEFAULT_CONFIG baseChainCfg) middleChainCfg

/-- C4 witness: the own-fields-last equation applied to the chain's top
config, and the file-entry loop step applied to its `./middle.yaml`
entry. -/
theorem resolveExtends_ordered_witness :
    (resolveExtends chainEnv 5 topChainCfg "/cfg/top.yaml" =
      (resolveExtendsLoop chainEnv (fun c p => resolveExtends chainEnv 4 c p)
        (StrOrArr.str "./middle.yaml").toArray "/cfg/top.yaml"
        DEFAULT_CONFIG).map (fun merged => mergeConfigs merged topChainCfg)) ∧
    (resolveExtendsLoop chainEnv (fun c p => resolveExtends chainEnv 4 c p)
        ["./middle.yaml"] "/cfg/top.yaml" DEFAULT_CONFIG =
      resolveExtendsLoop chainEnv (fun c p => resolveExtends chainEnv 4 c p)
        [] "/cfg/top.yaml" (mergeConfigs DEFAULT_CONFIG middleResolved)) := by
  exact ⟨resolveExtends_ordered.1 chainEnv 4 topChainCfg "/cfg/top.yaml"
      (.str "./middle.yaml") rfl,
    resolveExtends_ordered.2.1 chainEnv (fun c p => resolveExtends chainEnv 4 c p)
      "./middle.yaml" [] "/cfg/top.yaml" DEFAULT_CONFIG middleChainCfg
      middleResolved rfl rfl rfl⟩

/-- C9: entries without a path separator are split as `namespace:name`;
the `api-guardian` and `preset` namespaces resolve against the fixed
table containing exactly `strict`, `standard` and `lenient`; an unknown
preset name there fails with a configuration error whose suggestion
names the valid presets; an unrecognized namespace fails with a
configuration error; and a `spectral` entry is silently skipped. -/
theorem extends_namespace_handling :
    (getPresetRuleset (some "strict") = some STRICT_RULESET ∧
      getPresetRuleset (some "standard") = some STANDARD_RULESET ∧
      getPresetRuleset (some "lenient") = some LENIENT_RULESET ∧
      getPresetRuleset none = none ∧
      (∀ s, s ≠ "strict" → s ≠ "standard" → s ≠ "lenient" →
        getPresetRuleset (some s) = none)) ∧
    (∀ (env : ConfigEnv)
      (recurse : ApiGuardianConfig → String → Except ConfigError ApiGuardianConfig)
      (ext : String) (rest : List String) (bp : String) (acc : ApiGuardianConfig)
      (ns name : String),
      (strContains ext '/' || strContains ext '\\') = false →
      strSplitOn ext ':' = [ns, name] →
      (ns = "api-guardian" ∨ ns = "preset") →
      getPresetRuleset (some name) = none →
      resolveExtendsLoop env recurse (ext :: rest) bp acc =
        .error { message := "Unknown preset ruleset: " ++ ext,
                 suggestion := some "Use one of: api-guardian:strict, api-guardian:standard, api-guardian:lenient" }) ∧
    (∀ (env : ConfigEnv)
      (recurse : ApiGuardianConfig → String → Except ConfigError ApiGuardianConfig)
      (ext : String) (rest : List String) (bp : String) (acc : ApiGuardianConfig)
      (tail : List String),
      (strContains ext '/' || strContains ext '\\') = false →
      strSplitOn ext ':' = "spectral" :: tail →
      resolveExtendsLoop env recurse (ext :: rest) bp acc =
        resolveExtendsLoop env recurse rest bp acc) ∧
    (∀ (env : ConfigEnv)
      (recurse : ApiGuardianConfig → String → Except ConfigError ApiGuardianConfig)
      (ext : String) (rest : List String) (bp : String) (acc : ApiGuardianConfig)
      (ns : String) (tail : List String),
      (strContains ext '/' || strContains ext '\\') = false →
      strSplitOn ext ':' = ns :: tail →
      ns ≠ "api-guardian" → ns ≠ "preset" → ns ≠ "spectral" →
      resolveExtendsLoop env recurse (ext :: rest) bp acc =
        .error { message := "Unknown extends namespace: " ++ ns,
                 suggestion := some "Use api-guardian:strict, api-guardian:standard, or api-guardian:lenient" }) := by
  refine ⟨⟨rfl, rfl, rfl, rfl, fun s h1 h2 h3 => ?_⟩,
    fun env recurse ext rest bp acc ns name hc hs hns hp => ?_,
    fun env recurse ext rest bp acc tail hc hs => ?_,
    fun env recurse ext rest bp acc ns tail hc hs h1 h2 h3 => ?_⟩
  · simp only [getPresetRuleset, lookupKey]
    rw [if_neg (fun hh => h1 hh.symm), if_neg (fun hh => h2 hh.symm),
      if_neg (fun hh => h3 hh.symm)]
  · rcases hns with hns | hns <;>
      simp [resolveExtendsLoop, resolveExtendsEntry, hc, hs, hns, hp]
  · simp [resolveExtendsLoop, resolveExtendsEntry, hc, hs]
  · simp [resolveExtendsLoop, resolveExtendsEntry, hc, hs, h1, h2, h3]

/-- C9 witness: the preset table at each name, an unknown preset
(`api-guardian:bogus`), a skipped `spectral:oas` entry, and an unknown
namespace (`acme:strict`), all on a concrete loop state. -/
theorem extends_namespace_handling_witness :
    (getPresetRuleset (some "recommended") = none) ∧
    (resolveExtendsLoop chainEnv (fun c p => resolveExtends chainEnv 1 c p)
        ["api-guardian:bogus"] "/cfg/top.yaml" DEFAULT_CONFIG =
      .error { message := "Unknown preset ruleset: api-guardian:bogus",
               suggestion := some "Use one of: api-guardian:strict, api-guardian:standard, api-guardian:lenient" }) ∧
    (resolveExtendsLoop chainEnv (fun c p => resolveExtends chainEnv 1 c p)
        ["spectral:oas"] "/cfg/top.yaml" DEFAULT_CONFIG =
      resolveExtendsLoop chainEnv (fun c p => resolveExtends chainEnv 1 c p)
        [] "/cfg/top.yaml" DEFAULT_CONFIG) ∧
    (resolveExtendsLoop chainEnv (fun c p => resolveExtends chainEnv 1 c p)
        ["acme:strict"] "/cfg/top.yaml" DEFAULT_CONFIG =
      .error { message := "Unknown extends namespace: acme",
               suggestion := some "Use api-guardian:strict, api-guardian:standard, or api-guardian:lenient" }) := by
  refine ⟨extends_namespace_handling.1.2.2.2.2 "recommended"
      (by decide) (by decide) (by decide), ?_, ?_, ?_⟩
  · exact extends_namespace_handling.2.1 chainEnv
      (fun c p => resolveExtends chainEnv 1 c p) "api-guardian:bogus" []
      "/cfg/top.yaml" DEFAULT_CONFIG "api-guardian" "bogus" rfl rfl (Or.inl rfl) rfl
  · exact extends_namespace_handling.2.2.1 chainEnv
      (fun c p => resolveExtends chainEnv 1 c p) "spectral:oas" []
      "/cfg/top.yaml" DEFAULT_CONFIG ["oas"] rfl rfl
  · exact extends_namespace_handling.2.2.2 chainEnv
      (fun c p => resolveExtends chainEnv 1 c p) "acme:strict" []
      "/cfg/top.yaml" DEFAULT_CONFIG "acme" ["strict"] rfl rfl
      (by decide) (by decide) (by decide)

end ApiGuardian
